import Mathlib

/-!
Verification of the scan-orchestration core of Ingram_TermuxLite
(`Ingram/core.py`) against its natural-language specification.

The shallow embedding below translates `Core._scan`, `Core.finish`,
`Core.report` and `Core.run` from the Python source.  External
collaborators (`port_scan`, `fingerprint`, the PoC objects) are modelled
as an environment of functions that may raise exceptions (`Except Exn`);
the Python code under scrutiny contains no `try` in `_scan`, so the
embedding likewise propagates collaborator errors there.  The `Data` and
`SnapshotPipeline` classes are imported from a module that is not part of
the covered source; their operations are modelled from the spec
(see the individual doc comments).
-/

namespace Ingram

/-- A Python exception, identified by its message. -/
structure Exn where
  msg : String
deriving DecidableEq, Repr

/-- Python `str.split(sep)` for a one-character separator, on the
character list: splits at every occurrence, keeping empty pieces, and
yields one (possibly empty) piece for the empty string — exactly
CPython's semantics for an explicit separator. -/
def splitChar (sep : Char) : List Char → List (List Char)
  | [] => [[]]
  | c :: rest =>
    match splitChar sep rest with
    | [] => [[]]
    | g :: gs => if c = sep then [] :: g :: gs else (c :: g) :: gs

/-- Python `s.split(sep)` for a one-character separator. -/
def pySplit (sep : Char) (s : String) : List String :=
  (splitChar sep s.toList).map String.mk

/-- Python `str.strip()`: drop leading and trailing whitespace. -/
def pyStrip (s : String) : String :=
  String.mk (((s.toList.dropWhile Char.isWhitespace).reverse.dropWhile
    Char.isWhitespace).reverse)

/-- A PoC object: `verify(ip, port)` may raise, or return a value whose
Python truthiness gates the branch.  A falsy result (`None` or an empty
list) is modelled as `[]`; a truthy result is a non-empty field list.
`exploit` is only ever enqueued, never invoked, inside the covered core,
so it is modelled as an opaque tag. -/
structure Poc where
  verify : String → String → Except Exn (List String)
  exploit : String

/-- The slice of the configuration object that `Core` reads.
Ports are carried as strings: `_scan` passes them through unchanged and
applies `str` only in `add_not_vulnerable`, which is the identity on an
already-string port. -/
structure Config where
  ports : List String
  timeout : Nat
  disable_snapshot : Bool
  out_dir : String
  vulnerable : String
deriving Repr

/-- The external collaborators consumed by `Core._scan`:
`port_scan(ip, port, timeout)`, `fingerprint(ip, port, config)` and the
PoC registry `poc_dict`.  `get_poc_dict` is not part of the covered
source; per the spec a missing product maps to an empty PoC list, so the
registry is a total function. -/
structure Env where
  port_scan : String → String → Nat → Except Exn Bool
  fingerprint : String → String → Config → Except Exn (Option String)
  poc_dict : String → List Poc

/-- Modelled from the spec: the Progress Store state of the `Data` class
(module not under the covered source).  `done`/`found` are the shared
counters, `vulnerable`/`not_vulnerable` the append-only result logs, and
`running_state_writes` counts `record_running_state` checkpoint calls. -/
structure DataState where
  total : Nat
  done : Nat
  found : Nat
  vulnerable : List (List String)
  not_vulnerable : List (List String)
  running_state_writes : Nat
deriving DecidableEq, Repr

/-- Modelled from the spec: the Snapshot Pipeline state.  `put` appends a
`(exploit, results)` job and increments the outstanding-job count
`task_count`; consumers decrement it, so it is an integer that may reach
or pass zero. -/
structure PipelineState where
  queue : List (String × List String)
  task_count : Int
deriving DecidableEq, Repr

/-- The mutable state shared by the orchestrator: Progress Store,
Snapshot Pipeline, and the informational log emitted via `logger.info`. -/
structure CoreState where
  data : DataState
  pipeline : PipelineState
  infoLog : List String
deriving DecidableEq, Repr

/-- Modelled from the spec: `Data.add_found` increments the `found` counter. -/
def add_found (d : DataState) : DataState := { d with found := d.found + 1 }

/-- Modelled from the spec: `Data.add_done` increments the `done` counter. -/
def add_done (d : DataState) : DataState := { d with done := d.done + 1 }

/-- Modelled from the spec: `Data.add_vulnerable` appends one record to the
vulnerable result log. -/
def add_vulnerable (d : DataState) (r : List String) : DataState :=
  { d with vulnerable := d.vulnerable ++ [r] }

/-- Modelled from the spec: `Data.add_not_vulnerable` appends one record to
the not-vulnerable diagnostic log. -/
def add_not_vulnerable (d : DataState) (r : List String) : DataState :=
  { d with not_vulnerable := d.not_vulnerable ++ [r] }

/-- Modelled from the spec: `Data.record_running_state` overwrites the
running-state checkpoint; we count the writes. -/
def record_running_state (d : DataState) : DataState :=
  { d with running_state_writes := d.running_state_writes + 1 }

/-- Modelled from the spec: `SnapshotPipeline.put` enqueues a pending
snapshot job and increments the outstanding-job count. -/
def pipeline_put (p : PipelineState) (job : String × List String) : PipelineState :=
  { p with queue := p.queue ++ [job], task_count := p.task_count + 1 }

/-- `logger.info`: appends one line to the informational log. -/
def logInfo (s : CoreState) (msg : String) : CoreState :=
  { s with infoLog := s.infoLog ++ [msg] }

/-- `Core.finish` (core.py line 29):
`(self.data.done >= self.data.total) and (self.snapshot_pipeline.task_count <= 0)`. -/
def finish (s : CoreState) : Bool :=
  (decide (s.data.done ≥ s.data.total)) && (decide (s.pipeline.task_count ≤ 0))

/-- The PoC loop of `Core._scan` (core.py lines 77-88): iterate the
product's PoC list in order; on each truthy `verify` result bump `found`,
append the result truncated to its first 6 fields (`results[:6]`), and,
when snapshots are enabled, enqueue `(poc.exploit, results)`.  There is
no `break`: iteration continues after a success.  A raising `verify`
propagates (no `try` in the source).  `pocSuccessStep` is the loop body
for one truthy verify result (core.py lines 81-88). -/
def pocSuccessStep (cfg : Config) (poc : Poc) (results : List String)
    (s : CoreState) : CoreState :=
  let s := { s with data := add_found s.data }
  let s := { s with data := add_vulnerable s.data (results.take 6) }
  if cfg.disable_snapshot then s
  else { s with pipeline := pipeline_put s.pipeline (poc.exploit, results) }

def pocLoop (ip port : String) (cfg : Config) :
    List Poc → Bool → CoreState → Except Exn (Bool × CoreState)
  | [], verified, s => .ok (verified, s)
  | poc :: rest, verified, s =>
    match poc.verify ip port with
    | .error e => .error e
    | .ok results =>
      if results ≠ [] then
        pocLoop ip port cfg rest true (pocSuccessStep cfg poc results s)
      else
        pocLoop ip port cfg rest verified s

/-- One iteration of the port loop of `Core._scan` (core.py lines 71-90):
probe the port; if open, log and fingerprint; if a product matched, log,
run the PoC loop, and append a not-vulnerable record when no PoC
verified.  Raising collaborators propagate (no `try` in the source). -/
def scanPort (env : Env) (cfg : Config) (ip port : String) (s : CoreState) :
    Except Exn CoreState :=
  match env.port_scan ip port cfg.timeout with
  | .error e => .error e
  | .ok false => .ok s
  | .ok true =>
    let s := logInfo s (ip ++ " port " ++ port ++ " is open")
    match env.fingerprint ip port cfg with
    | .error e => .error e
    | .ok none => .ok s
    | .ok (some product) =>
      let s := logInfo s (ip ++ ":" ++ port ++ " is " ++ product)
      match pocLoop ip port cfg (env.poc_dict product) false s with
      | .error e => .error e
      | .ok (verified, s) =>
        .ok (if verified then s
             else { s with data := add_not_vulnerable s.data [ip, port, product] })

/-- The port loop of `Core._scan`, in configured order; the first
collaborator error aborts the remaining ports. -/
def scanPorts (env : Env) (cfg : Config) (ip : String) :
    List String → CoreState → Except Exn CoreState
  | [], s => .ok s
  | port :: rest, s =>
    match scanPort env cfg ip port s with
    | .error e => .error e
    | .ok s => scanPorts env cfg ip rest s

/-- `items[0]` of `target.split(':')` (core.py line 65); `split` always
yields at least one piece, so the Python index never raises. -/
def targetIp (target : String) : String := (pySplit ':' target).headD ""

/-- The resolved port list (core.py line 66): the explicit `items[1]` when
the target is `ip:port`, else the configured ports. -/
def targetPorts (cfg : Config) (target : String) : List String :=
  let items := pySplit ':' target
  if items.length > 1 then [items.getD 1 ""] else cfg.ports

/-- `Core._scan` (core.py lines 59-92): parse the target, process each
port, then `add_done` and `record_running_state`.  The source wraps none
of this in a `try`, so any collaborator exception propagates out of the
scan task. -/
def scan (env : Env) (cfg : Config) (target : String) (s : CoreState) :
    Except Exn CoreState :=
  match scanPorts env cfg (targetIp target) (targetPorts cfg target) s with
  | .error e => .error e
  | .ok s => .ok { s with data := record_running_state (add_done s.data) }

/-- The records a full pass of the PoC loop appends to the vulnerable
log: one `results[:6]` per PoC whose `verify` returns a truthy result, in
registry order. -/
def successfulRecords (pocs : List Poc) (ip port : String) : List (List String) :=
  pocs.filterMap fun poc =>
    match poc.verify ip port with
    | .ok r => if r = [] then none else some (r.take 6)
    | .error _ => none

/-- The snapshot jobs a full pass of the PoC loop enqueues: the exploit
tag with the full, untruncated verify result, in registry order. -/
def successfulJobs (pocs : List Poc) (ip port : String) : List (String × List String) :=
  pocs.filterMap fun poc =>
    match poc.verify ip port with
    | .ok r => if r = [] then none else some (poc.exploit, r)
    | .error _ => none

/-- `os.path.join(out_dir, vulnerable)` (core.py line 33). -/
def pathJoin (a b : String) : String := a ++ "/" ++ b

/-- Python list indexing `l[k]` for a non-negative index: raises
`IndexError` when out of range (as `i[2]` would on a malformed log line). -/
def listIdx (l : List String) (k : Nat) : Except Exn String :=
  match l.get? k with
  | some x => .ok x
  | none => .error ⟨"IndexError"⟩

/-- `[l.strip().split(',') for l in f if l.strip()]` (core.py line 36):
keep the lines whose stripped form is non-empty, split them on commas. -/
def reportItems (lines : List String) : List (List String) :=
  lines.filterMap fun l =>
    let t := pyStrip l
    if t = "" then none else some (pySplit ',' t)

/-- `results[dev][vul] += 1` on the inner `defaultdict(int)`: bump the
count for `vul`, preserving first-insertion order (Python dicts iterate
in insertion order). -/
def bumpCount : List (String × Nat) → String → List (String × Nat)
  | [], vul => [(vul, 1)]
  | (v, c) :: rest, vul =>
    if vul = v then (v, c + 1) :: rest else (v, c) :: bumpCount rest vul

/-- `results[dev][vul] += 1` on the outer `defaultdict`: bump the nested
count, preserving first-insertion order of the device groups. -/
def bumpGroup : List (String × List (String × Nat)) → String → String →
    List (String × List (String × Nat))
  | [], dev, vul => [(dev, [(vul, 1)])]
  | (d, m) :: rest, dev, vul =>
    if dev = d then (d, bumpCount m vul) :: rest else (d, m) :: bumpGroup rest dev vul

/-- The aggregation loop of `Core.report` (core.py lines 40-42):
`dev = i[2].split('-')[0]`, `vul = i[-1]`, `results[dev][vul] += 1`.
`i[2]` raises on a line with fewer than three fields; `i[-1]` never
raises because `split(',')` of a non-empty string is non-empty
(modelled with `getLastD`). -/
def aggregate : List (List String) → List (String × List (String × Nat)) →
    Except Exn (List (String × List (String × Nat)))
  | [], acc => .ok acc
  | i :: rest, acc =>
    match listIdx i 2 with
    | .error e => .error e
    | .ok f2 =>
      aggregate rest (bumpGroup acc ((pySplit '-' f2).headD "") (i.getLastD ""))

/-- `results_max = max([val for vul in results.values() for val in vul.values()])`
(core.py line 44).  Python's `max` raises on an empty list; `report` only
reaches it with a non-empty `items`, where every stored count is at least
1, so folding `max` from 0 is exact. -/
def maxCount (groups : List (String × List (String × Nat))) : Nat :=
  groups.foldl (fun m g => g.2.foldl (fun m p => max m p.2) m) 0

/-- `block_num = int(vul_count / results_max * 25)` (core.py line 53):
`int` truncates toward zero, which on this non-negative value is the
floor; Python's float division is modelled as exact rational arithmetic. -/
def blockNum (vulCount resultsMax : Nat) : Nat :=
  ⌊(vulCount : ℚ) / (resultsMax : ℚ) * 25⌋₊

/-- `c * n` on a character, as in `'▥' * block_num` and `'-' * 19`. -/
def repChar (c : Char) (n : Nat) : String := String.mk (List.replicate n c)

/-- Python format right-alignment `f"{s:>w}"`. -/
def padLeft (w : Nat) (s : String) : String := repChar ' ' (w - s.length) ++ s

/-- One vulnerability line of the report
(`f"{vul_name:>18} | {'▥' * block_num} {vul_count}"`, core.py line 54);
the `color.green` wrapper is an external formatting collaborator,
modelled as the identity on the rendered text. -/
def vulLine (resultsMax : Nat) (vulName : String) (vulCount : Nat) : String :=
  padLeft 18 vulName ++ " | " ++ repChar '▥' (blockNum vulCount resultsMax)
    ++ " " ++ toString vulCount

/-- The lines printed for one device group (core.py lines 48-54): the
`f"{dev} {dev_sum}"` header followed by one line per vulnerability, in
insertion order; the `color` wrappers are modelled as the identity. -/
def devBlock (resultsMax : Nat) (g : String × List (String × Nat)) : List String :=
  (g.1 ++ " " ++ toString ((g.2.map Prod.snd).sum))
    :: g.2.map (fun p => vulLine resultsMax p.1 p.2)

/-- The full output of `Core.report` (core.py lines 31-57) as the list of
printed strings, from the content of the results file (`none` when the
file does not exist, in which case nothing is printed; likewise when no
non-empty line survives the strip filter). -/
def reportLines (fileContent : Option (List String)) : Except Exn (List String) :=
  match fileContent with
  | none => .ok []
  | some lines =>
    let items := reportItems lines
    if items = [] then .ok []
    else
      match aggregate items [] with
      | .error e => .error e
      | .ok groups =>
        .ok (["\n", repChar '-' 19 ++ " REPORT " ++ repChar '-' 19]
          ++ (groups.map (devBlock (maxCount groups))).flatten
          ++ [padLeft 46 ("sum: " ++ toString items.length), repChar '-' 46, "\n"])

/-- `Core.report` as a step on the orchestrator state: it reads the
results file through the filesystem `fs` and produces output; the method
writes no attribute, so the state component passes through unchanged. -/
def report (cfg : Config) (fs : String → Option (List String)) (s : CoreState) :
    CoreState × Except Exn (List String) :=
  (s, reportLines (fs (pathJoin cfg.out_dir cfg.vulnerable)))

/-- The exception classes handled by `Core.run`: `KeyboardInterrupt`
(user interrupt) and `Exception` (any other error). -/
inductive RunExn where
  | interrupt
  | exception (msg : String)
deriving DecidableEq, Repr

/-- What `Core.run` produces: the error-log lines written by
`logger.error` and the report output when the `Reporting` phase ran
(`none` when it was skipped).  `run` returning a plain `RunResult` — not
an `Except` — is the embedding of "no exception escapes the run loop". -/
structure RunResult where
  errorLog : List String
  reported : Option (List String)
deriving DecidableEq, Repr

/-- `Core.run` (core.py lines 94-129).  The scanning phase (status bar,
snapshot-pipeline greenlet, pool spawn and join) is abstracted as its
outcome: normal completion, a `KeyboardInterrupt`, or an `Exception`.
The `try` also covers `self.report()`, so a report that raises an
ordinary exception is logged too; an interrupt skips the report
(`except KeyboardInterrupt: pass`), any other error is logged
(`except Exception as e: logger.error(e)`). -/
def run (cfg : Config) (fs : String → Option (List String))
    (scanOutcome : Except RunExn Unit) : RunResult :=
  match scanOutcome with
  | .error .interrupt => { errorLog := [], reported := none }
  | .error (.exception e) => { errorLog := [e], reported := none }
  | .ok _ =>
    match reportLines (fs (pathJoin cfg.out_dir cfg.vulnerable)) with
    | .ok out => { errorLog := [], reported := some out }
    | .error ex => { errorLog := [ex.msg], reported := none }

/-!  Concrete fixtures for the counterexample and witness theorems. -/

/-- A fresh orchestrator state: one target expected, nothing recorded. -/
def sInit : CoreState :=
  { data := { total := 1, done := 0, found := 0, vulnerable := [],
              not_vulnerable := [], running_state_writes := 0 },
    pipeline := { queue := [], task_count := 0 },
    infoLog := [] }

/-- A configuration with two scan ports and snapshots disabled. -/
def cfgTwoPorts : Config :=
  { ports := ["80", "81"], timeout := 5, disable_snapshot := true,
    out_dir := "out", vulnerable := "results.csv" }

/-- The same configuration with snapshots enabled. -/
def cfgSnap : Config :=
  { cfgTwoPorts with disable_snapshot := false }

/-- The exception raised by the failing port probe below. -/
def probeExn : Exn := ⟨"probe failed"⟩

/-- An environment whose port probe raises on port 80 and reports every
other port closed. -/
def envProbeFail : Env :=
  { port_scan := fun _ port _ => if port = "80" then .error probeExn else .ok false,
    fingerprint := fun _ _ _ => .ok none,
    poc_dict := fun _ => [] }

/-- An environment in which every port is closed. -/
def envAllClosed : Env :=
  { port_scan := fun _ _ _ => .ok false,
    fingerprint := fun _ _ _ => .ok none,
    poc_dict := fun _ => [] }

/-- An environment in which every port is open and fingerprints to a
product with an empty PoC list. -/
def envOpenNoPocs : Env :=
  { port_scan := fun _ _ _ => .ok true,
    fingerprint := fun _ _ _ => .ok (some "cam"),
    poc_dict := fun _ => [] }

/-- A seven-field PoC verify result. -/
def sevenFields : List String :=
  ["192.0.2.1", "80", "cam-V1", "admin", "admin", "rtsp", "extra"]

/-- A PoC whose `verify` always returns `sevenFields`. -/
def pocSeven : Poc :=
  { verify := fun _ _ => .ok sevenFields, exploit := "snapshot1" }

/-- A second seven-field PoC verify result. -/
def otherFields : List String :=
  ["192.0.2.1", "80", "cam-V2", "root", "root", "http", "more"]

/-- A second PoC whose `verify` always returns `otherFields`. -/
def pocOther : Poc :=
  { verify := fun _ _ => .ok otherFields, exploit := "snapshot2" }

/-- A persisted results log: device `cam`, vulnerability `A` twice and
vulnerability `B` three times. -/
def reportLog : List String :=
  ["1.1.1.1,80,cam-A,u,p,A",
   "1.1.1.2,80,cam-A,u,p,A",
   "1.1.1.3,80,cam-B,u,p,B",
   "1.1.1.4,80,cam-B,u,p,B",
   "1.1.1.5,80,cam-B,u,p,B"]

/-!  Helper lemmas. -/

lemma logInfo_data (s : CoreState) (m : String) : (logInfo s m).data = s.data := rfl

lemma logInfo_pipeline (s : CoreState) (m : String) :
    (logInfo s m).pipeline = s.pipeline := rfl

lemma pocSuccessStep_data (cfg : Config) (poc : Poc) (r : List String) (s : CoreState) :
    (pocSuccessStep cfg poc r s).data = add_vulnerable (add_found s.data) (r.take 6) := by
  cases hd : cfg.disable_snapshot <;> simp [pocSuccessStep, hd]

lemma pocSuccessStep_pipeline (cfg : Config) (poc : Poc) (r : List String) (s : CoreState) :
    (pocSuccessStep cfg poc r s).pipeline =
      if cfg.disable_snapshot then s.pipeline
      else pipeline_put s.pipeline (poc.exploit, r) := by
  cases hd : cfg.disable_snapshot <;> simp [pocSuccessStep, hd]

lemma pocSuccessStep_infoLog (cfg : Config) (poc : Poc) (r : List String) (s : CoreState) :
    (pocSuccessStep cfg poc r s).infoLog = s.infoLog := by
  cases hd : cfg.disable_snapshot <;> simp [pocSuccessStep, hd]

lemma successfulRecords_nil (ip port : String) : successfulRecords [] ip port = [] := rfl

lemma successfulJobs_nil (ip port : String) : successfulJobs [] ip port = [] := rfl

lemma successfulRecords_cons_error {poc : Poc} {ip port : String} {e : Exn}
    (rest : List Poc) (h : poc.verify ip port = .error e) :
    successfulRecords (poc :: rest) ip port = successfulRecords rest ip port := by
  simp [successfulRecords, List.filterMap_cons, h]

lemma successfulRecords_cons_empty {poc : Poc} {ip port : String}
    (rest : List Poc) (h : poc.verify ip port = .ok []) :
    successfulRecords (poc :: rest) ip port = successfulRecords rest ip port := by
  simp [successfulRecords, List.filterMap_cons, h]

lemma successfulRecords_cons_ok {poc : Poc} {ip port : String} {r : List String}
    (rest : List Poc) (h : poc.verify ip port = .ok r) (hr : r ≠ []) :
    successfulRecords (poc :: rest) ip port =
      r.take 6 :: successfulRecords rest ip port := by
  simp [successfulRecords, List.filterMap_cons, h, hr]

lemma successfulJobs_cons_empty {poc : Poc} {ip port : String}
    (rest : List Poc) (h : poc.verify ip port = .ok []) :
    successfulJobs (poc :: rest) ip port = successfulJobs rest ip port := by
  simp [successfulJobs, List.filterMap_cons, h]

lemma successfulJobs_cons_ok {poc : Poc} {ip port : String} {r : List String}
    (rest : List Poc) (h : poc.verify ip port = .ok r) (hr : r ≠ []) :
    successfulJobs (poc :: rest) ip port =
      (poc.exploit, r) :: successfulJobs rest ip port := by
  simp [successfulJobs, List.filterMap_cons, h, hr]

/-- Full characterisation of a normally-terminating pass of the PoC loop:
`found` grows by the number of truthy verifies, the vulnerable log gains
the truncated records in registry order, the snapshot queue gains the
untruncated jobs when snapshots are enabled, everything else in the
Progress Store is untouched, and `verified` ends true exactly when it
started true or some verify was truthy. -/
lemma pocLoop_ok (ip port : String) (cfg : Config) :
    ∀ (pocs : List Poc) (v : Bool) (s : CoreState) (v' : Bool) (s' : CoreState),
      pocLoop ip port cfg pocs v s = .ok (v', s') →
      s'.data.found = s.data.found + (successfulRecords pocs ip port).length ∧
      s'.data.vulnerable = s.data.vulnerable ++ successfulRecords pocs ip port ∧
      s'.data.done = s.data.done ∧
      s'.data.running_state_writes = s.data.running_state_writes ∧
      s'.data.not_vulnerable = s.data.not_vulnerable ∧
      s'.data.total = s.data.total ∧
      s'.pipeline.queue = s.pipeline.queue ++
        (if cfg.disable_snapshot then [] else successfulJobs pocs ip port) ∧
      s'.infoLog = s.infoLog ∧
      v' = (v || !(successfulRecords pocs ip port).isEmpty) := by
  intro pocs
  induction pocs with
  | nil =>
    intro v s v' s' h
    have hh : v = v' ∧ s = s' := by simpa [pocLoop] using h
    obtain ⟨hv, hs⟩ := hh
    subst hv; subst hs
    simp [successfulRecords_nil, successfulJobs_nil]
  | cons poc rest ih =>
    intro v s v' s' h
    simp only [pocLoop] at h
    cases hv : poc.verify ip port with
    | error e => rw [hv] at h; simp at h
    | ok r =>
      rw [hv] at h
      by_cases hr : r = []
      · subst hr
        simp only [ne_eq, not_true_eq_false, if_neg, ite_false, reduceIte] at h
        obtain ⟨hf, hvul, hdone, hrsw, hnv, htot, hq, hlog, hv'⟩ := ih v s v' s' h
        rw [successfulRecords_cons_empty rest hv, successfulJobs_cons_empty rest hv]
        exact ⟨hf, hvul, hdone, hrsw, hnv, htot, hq, hlog, hv'⟩
      · simp only [ne_eq, hr, not_false_eq_true, ite_true, if_pos, reduceIte] at h
        obtain ⟨hf, hvul, hdone, hrsw, hnv, htot, hq, hlog, hv'⟩ :=
          ih true (pocSuccessStep cfg poc r s) v' s' h
        rw [successfulRecords_cons_ok rest hv hr, successfulJobs_cons_ok rest hv hr]
        have hdata := pocSuccessStep_data cfg poc r s
        have hpipe := pocSuccessStep_pipeline cfg poc r s
        have hinfo := pocSuccessStep_infoLog cfg poc r s
        refine ⟨?_, ?_, ?_, ?_, ?_, ?_, ?_, ?_, ?_⟩
        · rw [hf, hdata]; simp [add_vulnerable, add_found, List.length_cons]; omega
        · rw [hvul, hdata]; simp [add_vulnerable, add_found]
        · rw [hdone, hdata]; simp [add_vulnerable, add_found]
        · rw [hrsw, hdata]; simp [add_vulnerable, add_found]
        · rw [hnv, hdata]; simp [add_vulnerable, add_found]
        · rw [htot, hdata]; simp [add_vulnerable, add_found]
        · rw [hq, hpipe]
          cases hd : cfg.disable_snapshot <;> simp [hd, pipeline_put]
        · rw [hlog, hinfo]
        · rw [hv']; simp

/-- Processing one port never touches the `done` counter, the checkpoint
writer, or the `total` counter, however the probe / fingerprint / PoC
branches resolve. -/
lemma scanPort_preserves (env : Env) (cfg : Config) (ip port : String)
    (s s' : CoreState) (h : scanPort env cfg ip port s = .ok s') :
    s'.data.done = s.data.done ∧
    s'.data.running_state_writes = s.data.running_state_writes ∧
    s'.data.total = s.data.total := by
  unfold scanPort at h
  cases hps : env.port_scan ip port cfg.timeout with
  | error e => rw [hps] at h; simp at h
  | ok b =>
    rw [hps] at h
    cases b with
    | false =>
      obtain rfl : s = s' := by simpa using h
      exact ⟨rfl, rfl, rfl⟩
    | true =>
      simp only at h
      cases hfp : env.fingerprint ip port cfg with
      | error e => rw [hfp] at h; simp at h
      | ok op =>
        rw [hfp] at h
        cases op with
        | none =>
          obtain rfl : logInfo s (ip ++ " port " ++ port ++ " is open") = s' := by
            simpa using h
          exact ⟨rfl, rfl, rfl⟩
        | some product =>
          simp only at h
          cases hpl : pocLoop ip port cfg (env.poc_dict product) false
              (logInfo (logInfo s (ip ++ " port " ++ port ++ " is open"))
                (ip ++ ":" ++ port ++ " is " ++ product)) with
          | error e => rw [hpl] at h; simp at h
          | ok p =>
            obtain ⟨verified, s₂⟩ := p
            rw [hpl] at h
            obtain ⟨_, _, hdone, hrsw, _, htot, _, _, _⟩ :=
              pocLoop_ok ip port cfg (env.poc_dict product) false _ verified s₂ hpl
            rw [logInfo_data, logInfo_data] at hdone hrsw htot
            cases verified with
            | true =>
              obtain rfl : s₂ = s' := by simpa using h
              exact ⟨hdone, hrsw, htot⟩
            | false =>
              obtain rfl :
                  ({ s₂ with data := add_not_vulnerable s₂.data [ip, port, product] }
                    : CoreState) = s' := by simpa using h
              exact ⟨hdone, hrsw, htot⟩

/-- The port loop never touches `done`, the checkpoint writer, or `total`. -/
lemma scanPorts_preserves (env : Env) (cfg : Config) (ip : String) :
    ∀ (ports : List String) (s s' : CoreState),
      scanPorts env cfg ip ports s = .ok s' →
      s'.data.done = s.data.done ∧
      s'.data.running_state_writes = s.data.running_state_writes ∧
      s'.data.total = s.data.total := by
  intro ports
  induction ports with
  | nil =>
    intro s s' h
    obtain rfl : s = s' := by simpa [scanPorts] using h
    exact ⟨rfl, rfl, rfl⟩
  | cons port rest ih =>
    intro s s' h
    simp only [scanPorts] at h
    cases hp : scanPort env cfg ip port s with
    | error e => rw [hp] at h; simp at h
    | ok s₁ =>
      rw [hp] at h
      obtain ⟨h1, h2, h3⟩ := scanPort_preserves env cfg ip port s s₁ hp
      obtain ⟨h4, h5, h6⟩ := ih s₁ s' h
      exact ⟨h4.trans h1, h5.trans h2, h6.trans h3⟩

/-- The bar width computed by `Core.report` is the floor of
`vul_count · 25 / results_max`: `int()` truncation on a non-negative
value, not rounding. -/
lemma blockNum_eq (c m : Nat) : blockNum c m = c * 25 / m := by
  unfold blockNum
  rcases Nat.eq_zero_or_pos m with hm | hm
  · subst hm; simp
  · rw [div_mul_eq_mul_div]
    rw [show ((c : ℚ) * 25) = (((c * 25 : ℕ) : ℚ)) by push_cast; ring]
    rw [Nat.floor_div_nat, Nat.floor_natCast]

/-!  Claim theorems. -/

/-- C1 (amended): `Core._scan` contains no error boundary.  An exception
raised by the port probe, the fingerprint, or a PoC `verify` call is not
caught: it aborts the remaining ports of the Target, skips `add_done` and
`record_running_state`, and propagates out of the Scan Task. -/
theorem scan_error_propagates
    (env : Env) (cfg : Config) (target : String) (s : CoreState) (e : Exn)
    (p : String) (rest : List String)
    (hports : targetPorts cfg target = p :: rest) :
    (env.port_scan (targetIp target) p cfg.timeout = .error e →
      scan env cfg target s = .error e) ∧
    (env.port_scan (targetIp target) p cfg.timeout = .ok true →
      env.fingerprint (targetIp target) p cfg = .error e →
      scan env cfg target s = .error e) ∧
    (∀ (product : String) (poc : Poc) (pocs : List Poc),
      env.port_scan (targetIp target) p cfg.timeout = .ok true →
      env.fingerprint (targetIp target) p cfg = .ok (some product) →
      env.poc_dict product = poc :: pocs →
      poc.verify (targetIp target) p = .error e →
      scan env cfg target s = .error e) := by
  refine ⟨?_, ?_, ?_⟩
  · intro hpe
    simp [scan, hports, scanPorts, scanPort, hpe]
  · intro hpt hfe
    simp [scan, hports, scanPorts, scanPort, hpt, hfe]
  · intro product poc pocs hpt hfp hdict hv
    simp [scan, hports, scanPorts, scanPort, pocLoop, hpt, hfp, hdict, hv]

/-- C1 counterexample: with a probe that raises on the first configured
port, `_scan` returns that exception to the pool instead of catching it —
refuting "any error … is caught and logged … never propagates". -/
theorem scan_probe_error_escapes :
    scan envProbeFail cfgTwoPorts "10.0.0.1" sInit = .error probeExn := rfl

/-- C1 witness: the amended propagation theorem applied to the concrete
failing environment. -/
theorem scan_error_propagates_witness :
    targetPorts cfgTwoPorts "10.0.0.1" = "80" :: ["81"] ∧
    envProbeFail.port_scan (targetIp "10.0.0.1") "80" cfgTwoPorts.timeout
      = .error probeExn ∧
    scan envProbeFail cfgTwoPorts "10.0.0.1" sInit = .error probeExn :=
  ⟨rfl, rfl,
    (scan_error_propagates envProbeFail cfgTwoPorts "10.0.0.1" sInit probeExn
      "80" ["81"] rfl).1 rfl⟩

/-- C2 (confirmed): whenever `_scan` completes normally, `add_done` and
`record_running_state` have each run exactly once, whatever happened at
the individual ports. -/
theorem scan_done_checkpoint_once
    (env : Env) (cfg : Config) (target : String) (s s' : CoreState)
    (h : scan env cfg target s = .ok s') :
    s'.data.done = s.data.done + 1 ∧
    s'.data.running_state_writes = s.data.running_state_writes + 1 := by
  unfold scan at h
  cases hsp : scanPorts env cfg (targetIp target) (targetPorts cfg target) s with
  | error e => rw [hsp] at h; simp at h
  | ok s₂ =>
    rw [hsp] at h
    obtain rfl :
        ({ s₂ with data := record_running_state (add_done s₂.data) } : CoreState)
          = s' := by simpa using h
    obtain ⟨h1, h2, _⟩ := scanPorts_preserves env cfg (targetIp target) _ s s₂ hsp
    exact ⟨by simp [record_running_state, add_done, h1],
           by simp [record_running_state, add_done, h2]⟩

/-- C2 witness: a target whose two configured ports are both closed still
bumps `done` and the checkpoint count exactly once. -/
theorem scan_done_checkpoint_once_witness :
    scan envAllClosed cfgTwoPorts "10.0.0.2" sInit =
      .ok { sInit with data := record_running_state (add_done sInit.data) } ∧
    ({ sInit with data := record_running_state (add_done sInit.data) }
        : CoreState).data.done = sInit.data.done + 1 ∧
    ({ sInit with data := record_running_state (add_done sInit.data) }
        : CoreState).data.running_state_writes
      = sInit.data.running_state_writes + 1 :=
  ⟨rfl, scan_done_checkpoint_once envAllClosed cfgTwoPorts "10.0.0.2" sInit _ rfl⟩

/-- C3 (confirmed): every record the PoC loop appends to the vulnerable
log is the verify result truncated to its first 6 fields
(`results[:6]`), so whenever every truthy verify result carries at least
7 fields, every newly persisted record has exactly 6 fields. -/
theorem vulnerable_records_truncated
    (ip port : String) (cfg : Config) (pocs : List Poc) (v v' : Bool)
    (s s' : CoreState)
    (h : pocLoop ip port cfg pocs v s = .ok (v', s'))
    (hlen : ∀ poc ∈ pocs, ∀ r, poc.verify ip port = .ok r → r = [] ∨ 7 ≤ r.length) :
    s'.data.vulnerable = s.data.vulnerable ++ successfulRecords pocs ip port ∧
    ∀ rec ∈ s'.data.vulnerable, rec ∈ s.data.vulnerable ∨ rec.length = 6 := by
  obtain ⟨_, hvul, _⟩ := pocLoop_ok ip port cfg pocs v s v' s' h
  refine ⟨hvul, ?_⟩
  intro rec hrec
  rw [hvul, List.mem_append] at hrec
  rcases hrec with h1 | h2
  · exact Or.inl h1
  · right
    simp only [successfulRecords, List.mem_filterMap] at h2
    obtain ⟨poc, hpoc, hf⟩ := h2
    cases hv2 : poc.verify ip port with
    | error e => rw [hv2] at hf; simp at hf
    | ok r =>
      rw [hv2] at hf
      by_cases hr : r = []
      · simp [hr] at hf
      · simp only [hr, if_neg, ite_false, reduceIte, Option.some.injEq] at hf
        rcases hlen poc hpoc r hv2 with h0 | h7
        · exact absurd h0 hr
        · rw [← hf, List.length_take]
          omega

/-- C3 witness: a 7-field verify result is persisted as its first 6
fields. -/
theorem vulnerable_records_truncated_witness :
    ((pocSuccessStep cfgTwoPorts pocSeven sevenFields sInit).data.vulnerable
      = sInit.data.vulnerable ++ successfulRecords [pocSeven] "192.0.2.1" "80") ∧
    (sevenFields.take 6 ∈ sInit.data.vulnerable ∨ (sevenFields.take 6).length = 6) := by
  have happ := vulnerable_records_truncated "192.0.2.1" "80" cfgTwoPorts [pocSeven]
    false true sInit (pocSuccessStep cfgTwoPorts pocSeven sevenFields sInit) rfl
    (by intro poc hp r hr
        rw [List.mem_singleton] at hp
        subst hp
        right
        have h7 : sevenFields = r := by simpa [pocSeven] using hr
        rw [← h7]; decide)
  exact ⟨happ.1, happ.2 (sevenFields.take 6) (by decide)⟩

/-- C4 (confirmed): the PoC loop has no break — it visits the registry
list in order even after a success, so a normally-terminating pass bumps
`found` once per truthy verify and appends the matching records in
registry order. -/
theorem pocLoop_counts_all_successes
    (ip port : String) (cfg : Config) (pocs : List Poc) (v v' : Bool)
    (s s' : CoreState)
    (h : pocLoop ip port cfg pocs v s = .ok (v', s')) :
    s'.data.found = s.data.found + (successfulRecords pocs ip port).length ∧
    s'.data.vulnerable = s.data.vulnerable ++ successfulRecords pocs ip port := by
  obtain ⟨hf, hvul, _⟩ := pocLoop_ok ip port cfg pocs v s v' s' h
  exact ⟨hf, hvul⟩

/-- C4 witness: two PoCs that both verify on the same port yield two
`found` increments and two appended records. -/
theorem pocLoop_counts_all_successes_witness :
    (successfulRecords [pocSeven, pocOther] "192.0.2.1" "80").length = 2 ∧
    ((pocSuccessStep cfgTwoPorts pocOther otherFields
        (pocSuccessStep cfgTwoPorts pocSeven sevenFields sInit)).data.found
      = sInit.data.found
          + (successfulRecords [pocSeven, pocOther] "192.0.2.1" "80").length) ∧
    ((pocSuccessStep cfgTwoPorts pocOther otherFields
        (pocSuccessStep cfgTwoPorts pocSeven sevenFields sInit)).data.vulnerable
      = sInit.data.vulnerable
          ++ successfulRecords [pocSeven, pocOther] "192.0.2.1" "80") :=
  ⟨rfl, pocLoop_counts_all_successes "192.0.2.1" "80" cfgTwoPorts
    [pocSeven, pocOther] false true sInit
    (pocSuccessStep cfgTwoPorts pocOther otherFields
      (pocSuccessStep cfgTwoPorts pocSeven sevenFields sInit)) rfl⟩

/-- C5 (amended): the rendered bar length equals the truncation
`⌊count · 25 / max⌋` — `int(vul_count / results_max * 25)` — not
`round(count / max * 25)`. -/
theorem report_bar_is_floor (resultsMax : Nat) (vulName : String) (vulCount : Nat) :
    vulLine resultsMax vulName vulCount =
      padLeft 18 vulName ++ " | " ++ repChar '▥' (vulCount * 25 / resultsMax)
        ++ " " ++ toString vulCount := by
  unfold vulLine
  rw [blockNum_eq]

/-- C5 counterexample: on a log whose counts are 2 and 3, the report
draws a 16-unit bar for the count-2 vulnerability, while
`round(2 / 3 * 25) = 17`. -/
theorem report_bar_round_counterexample :
    aggregate (reportItems reportLog) [] = .ok [("cam", [("A", 2), ("B", 3)])] ∧
    maxCount [("cam", [("A", 2), ("B", 3)])] = 3 ∧
    vulLine 3 "A" 2 = padLeft 18 "A" ++ " | " ++ repChar '▥' 16 ++ " 2" ∧
    ((16 : ℤ) ≠ round (((2 : ℚ) / 3) * 25)) := by
  refine ⟨rfl, rfl, ?_, ?_⟩
  · unfold vulLine
    rw [blockNum_eq]
    rfl
  · have h1 : ((2 : ℚ) / 3) * 25 = 50 / 3 := by norm_num
    have h2 : (50 : ℚ) / 3 + 1 / 2 = 103 / 6 := by norm_num
    have h3 : ⌊(103 : ℚ) / 6⌋ = 17 := by
      rw [Int.floor_eq_iff]
      constructor <;> norm_num
    rw [h1, round_eq, h2, h3]
    norm_num

/-- C6 (confirmed): for a port that probed open and fingerprinted to a
product, `add_not_vulnerable` receives `[ip, str(port), product]` exactly
when no PoC verify on that port was truthy. -/
theorem not_vulnerable_iff_no_success
    (env : Env) (cfg : Config) (ip port product : String) (s s' : CoreState)
    (hopen : env.port_scan ip port cfg.timeout = .ok true)
    (hfp : env.fingerprint ip port cfg = .ok (some product))
    (h : scanPort env cfg ip port s = .ok s') :
    s'.data.not_vulnerable = s.data.not_vulnerable ++
      (if successfulRecords (env.poc_dict product) ip port = []
        then [[ip, port, product]] else []) := by
  unfold scanPort at h
  rw [hopen] at h
  simp only at h
  rw [hfp] at h
  simp only at h
  cases hpl : pocLoop ip port cfg (env.poc_dict product) false
      (logInfo (logInfo s (ip ++ " port " ++ port ++ " is open"))
        (ip ++ ":" ++ port ++ " is " ++ product)) with
  | error e => rw [hpl] at h; simp at h
  | ok p =>
    obtain ⟨verified, s₂⟩ := p
    rw [hpl] at h
    obtain ⟨_, _, _, _, hnv, _, _, _, hv'⟩ :=
      pocLoop_ok ip port cfg (env.poc_dict product) false _ verified s₂ hpl
    rw [logInfo_data, logInfo_data] at hnv
    by_cases hrec : successfulRecords (env.poc_dict product) ip port = []
    · rw [if_pos hrec]
      rw [hrec] at hv'
      simp at hv'
      subst hv'
      obtain rfl :
          ({ s₂ with data := add_not_vulnerable s₂.data [ip, port, product] }
            : CoreState) = s' := by simpa using h
      simp [add_not_vulnerable, hnv]
    · rw [if_neg hrec]
      have hvt : verified = true := by
        rw [hv']
        simp [List.isEmpty_iff, hrec]
      subst hvt
      obtain rfl : s₂ = s' := by simpa using h
      simpa using hnv

/-- C6 witness: an open, fingerprinted port with an empty PoC list gets
exactly one not-vulnerable record. -/
theorem not_vulnerable_iff_no_success_witness :
    scanPort envOpenNoPocs cfgTwoPorts "192.0.2.9" "80" sInit =
      .ok { logInfo (logInfo sInit "192.0.2.9 port 80 is open")
              "192.0.2.9:80 is cam" with
            data := add_not_vulnerable sInit.data ["192.0.2.9", "80", "cam"] } ∧
    ({ logInfo (logInfo sInit "192.0.2.9 port 80 is open")
          "192.0.2.9:80 is cam" with
        data := add_not_vulnerable sInit.data ["192.0.2.9", "80", "cam"] }
      : CoreState).data.not_vulnerable
      = sInit.data.not_vulnerable ++
          (if successfulRecords (envOpenNoPocs.poc_dict "cam") "192.0.2.9" "80" = []
            then [["192.0.2.9", "80", "cam"]] else []) :=
  ⟨rfl, not_vulnerable_iff_no_success envOpenNoPocs cfgTwoPorts "192.0.2.9" "80"
    "cam" sInit _ rfl rfl rfl⟩

/-- C7 (confirmed): `Core.finish` is true exactly when the done counter
has reached the total and the snapshot pipeline's outstanding-job count
is at most zero. -/
theorem finish_iff_drained (s : CoreState) :
    finish s = true ↔
      (s.data.done ≥ s.data.total ∧ s.pipeline.task_count ≤ 0) := by
  simp [finish]

/-- C8 (confirmed): the run loop swallows both handled exception classes:
a user interrupt stops silently with the report skipped, and any other
error is logged and also stops cleanly; `run` is total, so nothing
escapes. -/
theorem run_never_escapes (cfg : Config) (fs : String → Option (List String)) :
    run cfg fs (.error .interrupt) = { errorLog := [], reported := none } ∧
    (∀ msg, run cfg fs (.error (.exception msg)) =
      { errorLog := [msg], reported := none }) :=
  ⟨rfl, fun _ => rfl⟩

/-- C9 (confirmed): `Core.report` leaves the orchestrator state untouched
and, run a second time over the same unchanged log, produces the
identical output. -/
theorem report_pure_idempotent (cfg : Config)
    (fs : String → Option (List String)) (s : CoreState) :
    (report cfg fs s).1 = s ∧
    report cfg fs (report cfg fs s).1 = report cfg fs s :=
  ⟨rfl, rfl⟩

/-- C10 (confirmed): with snapshots enabled, the PoC loop enqueues
`(poc.exploit, results)` with the full untruncated verify result, while
the vulnerable log receives only `results[:6]`. -/
theorem snapshot_jobs_untruncated
    (ip port : String) (cfg : Config) (pocs : List Poc) (v v' : Bool)
    (s s' : CoreState)
    (hsnap : cfg.disable_snapshot = false)
    (h : pocLoop ip port cfg pocs v s = .ok (v', s')) :
    s'.pipeline.queue = s.pipeline.queue ++ successfulJobs pocs ip port ∧
    s'.data.vulnerable = s.data.vulnerable ++ successfulRecords pocs ip port ∧
    (∀ poc ∈ pocs, ∀ r, poc.verify ip port = .ok r → r ≠ [] →
      (poc.exploit, r) ∈ s'.pipeline.queue) := by
  obtain ⟨_, hvul, _, _, _, _, hq, _, _⟩ := pocLoop_ok ip port cfg pocs v s v' s' h
  rw [hsnap] at hq
  simp only [Bool.false_eq_true, if_false, ite_false, reduceIte] at hq
  refine ⟨hq, hvul, ?_⟩
  intro poc hp r hr hne
  rw [hq, List.mem_append]
  right
  simp only [successfulJobs, List.mem_filterMap]
  exact ⟨poc, hp, by rw [hr]; simp [hne]⟩

/-- C10 witness: the queued job carries all 7 fields of the verify result
while the persisted record keeps 6. -/
theorem snapshot_jobs_untruncated_witness :
    ((pocSuccessStep cfgSnap pocSeven sevenFields sInit).pipeline.queue
      = sInit.pipeline.queue ++ successfulJobs [pocSeven] "192.0.2.1" "80") ∧
    ((pocSuccessStep cfgSnap pocSeven sevenFields sInit).data.vulnerable
      = sInit.data.vulnerable ++ successfulRecords [pocSeven] "192.0.2.1" "80") ∧
    ("snapshot1", sevenFields) ∈
      (pocSuccessStep cfgSnap pocSeven sevenFields sInit).pipeline.queue := by
  have happ := snapshot_jobs_untruncated "192.0.2.1" "80" cfgSnap [pocSeven]
    false true sInit (pocSuccessStep cfgSnap pocSeven sevenFields sInit) rfl rfl
  exact ⟨happ.1, happ.2.1,
    happ.2.2 pocSeven (List.mem_singleton.mpr rfl) sevenFields rfl (by decide)⟩

end Ingram
